import Mathlib

/-!
Verification of the EngineModule subprocess-pipe bridge
(src/windows/chessapp/EngineModule.cpp / EngineModule.h).

The module state (the private members of struct EngineModule) is embedded as
the structure Session.  OS handles are modelled as natural-number ids held in
Option fields (none models a nullptr member); the multiset of currently open
OS handles is tracked in openHandles so that closing-without-nulling is
distinguishable from a rollback to the null configuration.  Outcomes of OS
calls (CreatePipe, CreateProcessW, WriteFile, PeekNamedPipe, ReadFile,
GetExitCodeProcess) are supplied by oracle records, one field per call site.
Byte streams (stdin commands, stdout chunks) are lists of naturals; wide
path strings are lists of characters.
-/

/-- Fixed handle id for the child end of the stdin pipe (stdinRead). -/
def hStdinRead : Nat := 1

/-- Fixed handle id for the parent end of the stdin pipe (m_stdinWrite). -/
def hStdinWrite : Nat := 2

/-- Fixed handle id for the parent end of the stdout pipe (m_stdoutRead). -/
def hStdoutRead : Nat := 3

/-- Fixed handle id for the child end of the stdout pipe (stdoutWrite). -/
def hStdoutWrite : Nat := 4

/-- Fixed handle id for the parent end of the stderr pipe (m_stderrRead). -/
def hStderrRead : Nat := 5

/-- Fixed handle id for the child end of the stderr pipe (stderrWrite). -/
def hStderrWrite : Nat := 6

/-- Fixed handle id for the spawned engine process (pi.hProcess). -/
def hProcess : Nat := 7

/-- The private state of struct EngineModule (EngineModule.h, lines 56-72),
plus bookkeeping of which OS handles are open and which processes have been
passed to TerminateProcess. -/
structure Session where
  isRunning : Bool
  processHandle : Option Nat
  stdinWrite : Option Nat
  stdoutRead : Option Nat
  stderrRead : Option Nat
  outputQueue : List (List Nat)
  threadJoinable : Bool
  openHandles : List Nat
  terminated : List Nat
deriving DecidableEq

/-- The freshly constructed module: every handle member is nullptr,
m_isRunning is false, the queue is empty and no drainer thread exists. -/
def nullSession : Session :=
  ⟨false, none, none, none, none, [], false, [], []⟩

/-- A session with an engine attached: all four handles valid and open,
the drainer thread started, m_isRunning true. -/
def runningSession : Session :=
  ⟨true, some hProcess, some hStdinWrite, some hStdoutRead, some hStderrRead,
   [], true, [hStdinWrite, hStdoutRead, hStderrRead, hProcess], []⟩

/-- Close one OS handle: remove its id from the open-handle list.  The field
that may still hold the id is left untouched, exactly as a bare
CloseHandle(h) call leaves the member variable. -/
def closeH (h : Nat) (st : Session) : Session :=
  { st with openHandles := st.openHandles.filter (fun x => x != h) }

/-- Outcome oracle for the two OS calls in SendCommand: the WriteFile return
value and the byte count it reported through bytesWritten. -/
structure WriteOutcome where
  ok : Bool
  bytesWritten : Nat
deriving DecidableEq

/-- Result of SendCommand as observed through the promise. -/
inductive SendResult
  | notRunning
  | writeFailed
  | success
deriving DecidableEq

/-- The newline adjustment of EngineModule::SendCommand
(EngineModule.cpp, lines 119-123): append one terminator byte 10 when the
command is nonempty and its last byte is not already 10; otherwise leave the
command unchanged. -/
def adjustCommand (c : List Nat) : List Nat :=
  if c ≠ [] ∧ c.getLast? ≠ some 10 then c ++ [10] else c

/-- EngineModule::SendCommand (EngineModule.cpp, lines 107-141).
Returns the promise outcome, the module state after the call (SendCommand
mutates no member), and the list of buffers handed to WriteFile on the stdin
pipe.  The guard rejects when m_isRunning is false or m_stdinWrite is null;
otherwise the adjusted command is written and the call fails only when
WriteFile itself returns failure (the reported byte count is never
inspected by the source). -/
def sendCommand (st : Session) (c : List Nat) (w : WriteOutcome) :
    SendResult × Session × List (List Nat) :=
  if st.isRunning = false ∨ st.stdinWrite = none then
    (SendResult.notRunning, st, [])
  else
    let adjusted := adjustCommand c
    if w.ok = false then (SendResult.writeFailed, st, [adjusted])
    else (SendResult.success, st, [adjusted])

/-- The concatenation performed by ReadOutput's drain loop: stringstream ss
accumulates the queue front-to-back. -/
def concatQueue : List (List Nat) → List Nat
  | [] => []
  | chunk :: rest => chunk ++ concatQueue rest

/-- EngineModule::ReadOutput (EngineModule.cpp, lines 146-172).
Under the queue lock only: an empty queue resolves to empty text and leaves
the state alone; otherwise every queued chunk is popped in FIFO order and
their concatenation is resolved.  No engine-state field is consulted. -/
def readOutput (st : Session) : List Nat × Session :=
  if st.outputQueue = [] then ([], st)
  else (concatQueue st.outputQueue, { st with outputQueue := [] })

/-- EngineModule::CleanupProcess (EngineModule.cpp, lines 393-437).
Clears m_isRunning, joins the output thread when joinable, terminates and
closes the process handle when non-null, closes and nulls each of the three
pipe members that is non-null, and empties the output queue. -/
def cleanupProcess (st : Session) : Session :=
  let st1 : Session := { st with isRunning := false, threadJoinable := false }
  let st2 : Session :=
    match st1.processHandle with
    | some h =>
        { closeH h st1 with processHandle := none,
                            terminated := st1.terminated ++ [h] }
    | none => st1
  let st3 : Session :=
    match st2.stdinWrite with
    | some h => { closeH h st2 with stdinWrite := none }
    | none => st2
  let st4 : Session :=
    match st3.stdoutRead with
    | some h => { closeH h st3 with stdoutRead := none }
    | none => st3
  let st5 : Session :=
    match st4.stderrRead with
    | some h => { closeH h st4 with stderrRead := none }
    | none => st4
  { st5 with outputQueue := [] }

/-- Outcome oracle for the OS calls in CreateEngineProcess: one flag per
CreatePipe call and one for CreateProcessW. -/
structure PipeOracle where
  stdinPipeOk : Bool
  stdoutPipeOk : Bool
  stderrPipeOk : Bool
  createProcessOk : Bool
deriving DecidableEq

/-- EngineModule::CreateEngineProcess (EngineModule.cpp, lines 202-285).
Creates the stdin, stdout and stderr pipes in that order; on a pipe
failure it closes exactly the handles already opened (leaving the member
fields as they stand, since the source nulls nothing on those paths) and
returns false.  On pipe success it closes the three child ends, and on
CreateProcessW failure calls CleanupProcess; on full success it stores the
process handle. -/
def createEngineProcess (st : Session) (o : PipeOracle) : Bool × Session :=
  if o.stdinPipeOk = false then (false, st)
  else
    let st1 : Session :=
      { st with stdinWrite := some hStdinWrite,
                openHandles := st.openHandles ++ [hStdinRead, hStdinWrite] }
    if o.stdoutPipeOk = false then
      (false, closeH hStdinWrite (closeH hStdinRead st1))
    else
      let st2 : Session :=
        { st1 with stdoutRead := some hStdoutRead,
                   openHandles := st1.openHandles ++ [hStdoutRead, hStdoutWrite] }
      if o.stderrPipeOk = false then
        (false, closeH hStdoutWrite (closeH hStdoutRead
                  (closeH hStdinWrite (closeH hStdinRead st2))))
      else
        let st3 : Session :=
          { st2 with stderrRead := some hStderrRead,
                     openHandles := st2.openHandles ++ [hStderrRead, hStderrWrite] }
        let st4 : Session :=
          closeH hStderrWrite (closeH hStdoutWrite (closeH hStdinRead st3))
        if o.createProcessOk = false then (false, cleanupProcess st4)
        else
          (true, { st4 with processHandle := some hProcess,
                            openHandles := st4.openHandles ++ [hProcess] })

/-- EngineModule::StopEngine (EngineModule.cpp, lines 177-189): runs
CleanupProcess under the lifecycle lock and always resolves true. -/
def stopEngine (st : Session) : Bool × Session :=
  (true, cleanupProcess st)

/-- EngineModule::IsEngineRunning (EngineModule.cpp, lines 194-197). -/
def isEngineRunning (st : Session) : Bool :=
  st.isRunning

/-- True exactly on the path-separator characters of find_last_of(L"\x5c/"). -/
def isPathSep (c : Char) : Bool :=
  c = '\\' || c = '/'

/-- The filename extraction used by both SpawnEngine (lines 42-45) and
CopyEngineToAppData (lines 359-362): the suffix after the last backslash or
slash, or the whole path when neither occurs. -/
def fileNameOf (p : List Char) : List Char :=
  (p.reverse.takeWhile (fun c => !(isPathSep c))).reverse

/-- The package-relative engine path built by SpawnEngine (line 48):
packagePath, the literal segment Assets engines, then the extracted
filename. -/
def resolvePackagePath (pkgPath enginePath : List Char) : List Char :=
  pkgPath ++ ("\\Assets\\engines\\".data) ++ fileNameOf enginePath

/-- The destination path computed by EngineModule::CopyEngineToAppData
(EngineModule.cpp, lines 341-388): temp path, the ChessAppEngine
subdirectory, then the filename extracted from the source path. -/
def copyEngineToAppData (tmpPath sourcePath : List Char) : List Char :=
  (tmpPath ++ "ChessAppEngine\\".data) ++ fileNameOf sourcePath

/-- Outcome oracle for SpawnEngine: whether GetFileAttributesW finds the
packaged engine, whether the copy to the temp folder succeeds, and the
outcomes inside CreateEngineProcess. -/
structure SpawnOracle where
  fileExists : Bool
  copyOk : Bool
  pipes : PipeOracle
deriving DecidableEq

/-- Result of SpawnEngine as observed through the promise. -/
inductive SpawnResult
  | notFound
  | copyFailed
  | launchFailed
  | ok
deriving DecidableEq

/-- Result record of SpawnEngine: the promise outcome, the module state
afterwards, and the path handed to CreateProcessW when process creation was
attempted. -/
structure SpawnOutcome where
  result : SpawnResult
  state : Session
  launched : Option (List Char)
deriving DecidableEq

/-- EngineModule::SpawnEngine (EngineModule.cpp, lines 29-102).
Resolves the filename against the package Assets engines directory, rejects
when the file is absent, copies it to the temp folder, rejects when the copy
fails; then, when m_isRunning, runs CleanupProcess, and only then calls
CreateEngineProcess on the temp copy; on success sets m_isRunning and starts
the drainer thread. -/
def spawnEngine (pkg tmp : List Char) (st : Session) (path : List Char)
    (o : SpawnOracle) : SpawnOutcome :=
  if o.fileExists = false then ⟨SpawnResult.notFound, st, none⟩
  else if o.copyOk = false then ⟨SpawnResult.copyFailed, st, none⟩
  else
    let tempEnginePath := copyEngineToAppData tmp (resolvePackagePath pkg path)
    let st1 : Session := if st.isRunning then cleanupProcess st else st
    let r := createEngineProcess st1 o.pipes
    if r.1 then
      ⟨SpawnResult.ok, { r.2 with isRunning := true, threadJoinable := true },
       some tempEnginePath⟩
    else ⟨SpawnResult.launchFailed, r.2, some tempEnginePath⟩

/-- Outcome oracle for one iteration of the drainer loop: PeekNamedPipe's
available count being positive, ReadFile's return value, the bytes ReadFile
placed in the buffer, whether an OnEngineOutput listener is registered, and
GetExitCodeProcess reporting a code other than STILL_ACTIVE. -/
structure DrainOracle where
  dataAvailable : Bool
  readOk : Bool
  bytes : List Nat
  listenerSet : Bool
  processExited : Bool
deriving DecidableEq

/-- The decode step of OutputReaderThread (EngineModule.cpp, lines 304-305):
buffer[bytesRead] is set to 0 and std::string is constructed from the char
pointer, so the chunk is the read bytes up to the first zero byte. -/
def decodeChunk (bytes : List Nat) : List Nat :=
  bytes.takeWhile (fun b => b != 0)

/-- One iteration of EngineModule::OutputReaderThread
(EngineModule.cpp, lines 290-335).  When m_isRunning is false the loop does
not run.  Otherwise: when data is available and ReadFile succeeds with a
positive count, the decoded chunk is pushed on the queue and, when a
listener is registered, emitted; then the liveness check runs and, when the
process has exited, m_isRunning is cleared and the loop breaks.  Returns the
new state and the chunk emitted to the listener, if any. -/
def outputReaderStep (st : Session) (d : DrainOracle) :
    Session × Option (List Nat) :=
  if st.isRunning = false then (st, none)
  else
    let readSome := d.dataAvailable && d.readOk && !d.bytes.isEmpty
    let chunk := decodeChunk d.bytes
    let st1 : Session :=
      if readSome then { st with outputQueue := st.outputQueue ++ [chunk] }
      else st
    let ev : Option (List Nat) :=
      if readSome && d.listenerSet then some chunk else none
    if d.processExited then ({ st1 with isRunning := false }, ev)
    else (st1, ev)

/-- The operations that touch the module state: the five public methods and
one drainer iteration. -/
inductive EngineOp
  | spawn (pkg tmp path : List Char) (o : SpawnOracle)
  | send (c : List Nat) (w : WriteOutcome)
  | readOut
  | stop
  | query
  | drain (d : DrainOracle)

/-- The state transition of each operation. -/
def moduleStep (st : Session) : EngineOp → Session
  | EngineOp.spawn pkg tmp path o => (spawnEngine pkg tmp st path o).state
  | EngineOp.send c w => (sendCommand st c w).2.1
  | EngineOp.readOut => (readOutput st).2
  | EngineOp.stop => (stopEngine st).2
  | EngineOp.query => st
  | EngineOp.drain d => (outputReaderStep st d).1

/-- C1 counterexample: on a running session, the empty command is written as
zero bytes, which do not end in a line terminator, so the written bytes are
not the command plus exactly one trailing terminator; likewise a command
already ending in two terminators is written unchanged, still ending in two.
This refutes the claim for empty and newline-terminated commands. -/
theorem sendCommand_empty_not_terminated :
    (sendCommand runningSession [] ⟨true, 0⟩).2.2 = [[]] ∧
    ¬ (([] : List Nat) = [] ++ [10]) ∧
    (([] : List Nat).getLast? ≠ some 10) ∧
    (sendCommand runningSession [10, 10] ⟨true, 2⟩).2.2 = [[10, 10]] ∧
    ¬ ([10, 10] = ([10] : List Nat) ++ [10, 10]) := by
  decide

/-- C1 (amended): on a running session, SendCommand writes exactly the
adjusted command, where a nonempty command whose last byte is not a
terminator gets exactly one terminator appended, a command already ending in
a terminator is written unchanged, and the empty command is written as zero
bytes with no terminator. -/
theorem sendCommand_writes_adjusted (st : Session) (c : List Nat)
    (w : WriteOutcome) (hrun : st.isRunning = true)
    (hpipe : st.stdinWrite ≠ none) :
    (sendCommand st c w).2.2 = [adjustCommand c] ∧
    (c ≠ [] → c.getLast? ≠ some 10 → adjustCommand c = c ++ [10]) ∧
    (c.getLast? = some 10 → adjustCommand c = c) ∧
    adjustCommand [] = [] := by
  refine ⟨?_, ?_, ?_, by decide⟩
  · simp only [sendCommand, hrun]
    cases hw : w.ok <;> simp [hpipe]
  · intro h1 h2
    simp [adjustCommand, h1, h2]
  · intro h
    simp [adjustCommand, h]

/-- Witness for sendCommand_writes_adjusted at the concrete command "go" on
the running session. -/
theorem sendCommand_writes_adjusted_witness :
    (sendCommand runningSession [103, 111] ⟨true, 3⟩).2.2 =
      [adjustCommand [103, 111]] :=
  (sendCommand_writes_adjusted runningSession [103, 111] ⟨true, 3⟩
    (by decide) (by decide)).1

/-- C3 counterexample: on a running session, WriteFile reports success with
zero bytes accepted while the adjusted command has three bytes, yet
SendCommand resolves success — the byte count is never compared with the
command length. -/
theorem sendCommand_short_write_succeeds :
    (sendCommand runningSession [103, 111] ⟨true, 0⟩).1 = SendResult.success ∧
    (0 : Nat) ≠ (adjustCommand [103, 111]).length := by
  decide

/-- C3 (amended): on a running session, SendCommand fails with WriteFailed
exactly when the OS write returns an error, and succeeds exactly when the
write call returns success; the reported byte count is not checked, so a
short but successful write still resolves success. -/
theorem sendCommand_fails_iff_write_error (st : Session) (c : List Nat)
    (w : WriteOutcome) (hrun : st.isRunning = true)
    (hpipe : st.stdinWrite ≠ none) :
    ((sendCommand st c w).1 = SendResult.writeFailed ↔ w.ok = false) ∧
    ((sendCommand st c w).1 = SendResult.success ↔ w.ok = true) := by
  simp only [sendCommand, hrun]
  cases hw : w.ok <;> simp [hpipe]

/-- Witness for sendCommand_fails_iff_write_error on the running session
with a failing write. -/
theorem sendCommand_fails_iff_write_error_witness :
    (sendCommand runningSession [103, 111] ⟨false, 0⟩).1 =
      SendResult.writeFailed ↔ (⟨false, 0⟩ : WriteOutcome).ok = false :=
  (sendCommand_fails_iff_write_error runningSession [103, 111] ⟨false, 0⟩
    (by decide) (by decide)).1

/-- C8: SendCommand on a session whose running flag is false rejects with
NotRunning, hands no buffer to WriteFile, and returns the state unchanged. -/
theorem sendCommand_not_running (st : Session) (c : List Nat)
    (w : WriteOutcome) (h : st.isRunning = false) :
    sendCommand st c w = (SendResult.notRunning, st, []) := by
  simp [sendCommand, h]

/-- Witness for sendCommand_not_running on the null session with the
command "ping". -/
theorem sendCommand_not_running_witness :
    sendCommand nullSession [112, 105, 110, 103] ⟨true, 5⟩ =
      (SendResult.notRunning, nullSession, []) :=
  sendCommand_not_running nullSession [112, 105, 110, 103] ⟨true, 5⟩ rfl

/-- C4: a single ReadOutput call returns the concatenation of the queued
chunks in arrival order and leaves the queue empty, touching no other field
(in particular no engine-state field can make it fail); with nothing queued
it returns empty text and the unchanged state. -/
theorem readOutput_drains_in_order (st : Session) :
    (readOutput st).1 = concatQueue st.outputQueue ∧
    (readOutput st).2.outputQueue = [] ∧
    (readOutput st).2.isRunning = st.isRunning ∧
    (readOutput st).2.processHandle = st.processHandle ∧
    (readOutput st).2.stdinWrite = st.stdinWrite ∧
    (∀ a b c : List Nat,
      (readOutput { st with outputQueue := [a, b, c] }).1 = a ++ b ++ c) ∧
    readOutput { st with outputQueue := [] } =
      ([], { st with outputQueue := [] }) := by
  refine ⟨?_, ?_, ?_, ?_, ?_, ?_, ?_⟩
  · by_cases h : st.outputQueue = [] <;> simp [readOutput, h, concatQueue]
  · by_cases h : st.outputQueue = [] <;> simp [readOutput, h]
  · by_cases h : st.outputQueue = [] <;> simp [readOutput, h]
  · by_cases h : st.outputQueue = [] <;> simp [readOutput, h]
  · by_cases h : st.outputQueue = [] <;> simp [readOutput, h]
  · intro a b c
    simp [readOutput, concatQueue, List.append_assoc]
  · simp [readOutput]

/-- CleanupProcess leaves every lifecycle field in the null configuration,
empties the queue, and records the termination of the process it held. -/
theorem cleanupProcess_fields (st : Session) :
    (cleanupProcess st).isRunning = false ∧
    (cleanupProcess st).threadJoinable = false ∧
    (cleanupProcess st).processHandle = none ∧
    (cleanupProcess st).stdinWrite = none ∧
    (cleanupProcess st).stdoutRead = none ∧
    (cleanupProcess st).stderrRead = none ∧
    (cleanupProcess st).outputQueue = [] ∧
    (cleanupProcess st).terminated = st.terminated ++ st.processHandle.toList := by
  obtain ⟨r, p, si, so, se, q, t, oh, tm⟩ := st
  cases p <;> cases si <;> cases so <;> cases se <;>
    simp [cleanupProcess, closeH]

/-- Running CleanupProcess twice is the same as running it once. -/
theorem cleanupProcess_idem (st : Session) :
    cleanupProcess (cleanupProcess st) = cleanupProcess st := by
  obtain ⟨r, p, si, so, se, q, t, oh, tm⟩ := st
  cases p <;> cases si <;> cases so <;> cases se <;>
    simp [cleanupProcess, closeH]

/-- C2 counterexample: when the stdin pipe is created and the stdout pipe
creation fails, CreateEngineProcess returns failure and closes both stdin
pipe ends, yet the m_stdinWrite member still holds the closed handle value —
the session is not left with all four handles null. -/
theorem createEngineProcess_stale_field :
    (createEngineProcess nullSession ⟨true, false, true, true⟩).1 = false ∧
    (createEngineProcess nullSession ⟨true, false, true, true⟩).2.stdinWrite =
      some hStdinWrite ∧
    (createEngineProcess nullSession ⟨true, false, true, true⟩).2.stdinWrite ≠
      none ∧
    (createEngineProcess nullSession ⟨true, false, true, true⟩).2.openHandles =
      [] := by
  decide

/-- C2 (amended): on any pipe-creation failure, CreateEngineProcess returns
failure and every OS handle opened so far is closed again (no handle leaks,
and the process handle member is untouched, so no process is attached), but
the member fields of pipes already created keep their now-closed handle
values instead of being reset to null: m_stdinWrite is non-null whenever the
stdin pipe had been created, and m_stdoutRead is non-null whenever the
stdout pipe had been created. -/
theorem createEngineProcess_pipe_failure (st : Session) (o : PipeOracle)
    (hopen : st.openHandles = [])
    (hfail : o.stdinPipeOk = false ∨ o.stdoutPipeOk = false ∨
             o.stderrPipeOk = false) :
    (createEngineProcess st o).1 = false ∧
    (createEngineProcess st o).2.openHandles = [] ∧
    (createEngineProcess st o).2.processHandle = st.processHandle ∧
    (createEngineProcess st o).2.stderrRead = st.stderrRead ∧
    (createEngineProcess st o).2.stdinWrite =
      (if o.stdinPipeOk then some hStdinWrite else st.stdinWrite) ∧
    (createEngineProcess st o).2.stdoutRead =
      (if o.stdinPipeOk && o.stdoutPipeOk then some hStdoutRead
       else st.stdoutRead) := by
  obtain ⟨si, so, se, cp⟩ := o
  cases si <;> cases so <;> cases se <;>
    simp_all [createEngineProcess, closeH, hStdinRead, hStdinWrite,
      hStdoutRead, hStdoutWrite]

/-- Witness for createEngineProcess_pipe_failure: the stdout pipe fails on
the null session. -/
theorem createEngineProcess_pipe_failure_witness :
    (createEngineProcess nullSession ⟨true, false, true, true⟩).1 = false :=
  (createEngineProcess_pipe_failure nullSession ⟨true, false, true, true⟩
    rfl (Or.inr (Or.inl rfl))).1

/-- C5: when SpawnEngine is called with a session running and reaches the
launch stage, the old session is first fully stopped — CleanupProcess leaves
the running flag false, the drainer joined (not joinable), every handle
member null, and records the old process as terminated — and only that
cleaned state is handed to CreateEngineProcess, so no two engine processes
are ever simultaneously attached. -/
theorem spawnEngine_stops_old_first (pkg tmp : List Char) (st : Session)
    (path : List Char) (o : SpawnOracle) (hrun : st.isRunning = true)
    (hf : o.fileExists = true) (hc : o.copyOk = true) :
    (cleanupProcess st).isRunning = false ∧
    (cleanupProcess st).threadJoinable = false ∧
    (cleanupProcess st).processHandle = none ∧
    (cleanupProcess st).stdinWrite = none ∧
    (cleanupProcess st).stdoutRead = none ∧
    (cleanupProcess st).stderrRead = none ∧
    (cleanupProcess st).terminated =
      st.terminated ++ st.processHandle.toList ∧
    spawnEngine pkg tmp st path o =
      (let r := createEngineProcess (cleanupProcess st) o.pipes
       if r.1 then
         ⟨SpawnResult.ok,
          { r.2 with isRunning := true, threadJoinable := true },
          some (copyEngineToAppData tmp (resolvePackagePath pkg path))⟩
       else
         ⟨SpawnResult.launchFailed, r.2,
          some (copyEngineToAppData tmp (resolvePackagePath pkg path))⟩) := by
  obtain ⟨f1, f2, f3, f4, f5, f6, _, f8⟩ := cleanupProcess_fields st
  refine ⟨f1, f2, f3, f4, f5, f6, f8, ?_⟩
  simp [spawnEngine, hf, hc, hrun]

/-- Witness for spawnEngine_stops_old_first on the running session. -/
theorem spawnEngine_stops_old_first_witness :
    (cleanupProcess runningSession).isRunning = false :=
  (spawnEngine_stops_old_first [] [] runningSession []
    ⟨true, true, ⟨true, true, true, true⟩⟩ rfl rfl rfl).1

/-- C6: StopEngine always resolves true; running it twice in a row succeeds
both times and the second run changes nothing; on the null session it is a
no-op success; and after it returns the running flag is false, the drainer
thread is joined, and all four handle members are null. -/
theorem stopEngine_idempotent (st : Session) :
    (stopEngine st).1 = true ∧
    (stopEngine (stopEngine st).2).1 = true ∧
    (stopEngine (stopEngine st).2).2 = (stopEngine st).2 ∧
    stopEngine nullSession = (true, nullSession) ∧
    (stopEngine st).2.isRunning = false ∧
    (stopEngine st).2.threadJoinable = false ∧
    (stopEngine st).2.processHandle = none ∧
    (stopEngine st).2.stdinWrite = none ∧
    (stopEngine st).2.stdoutRead = none ∧
    (stopEngine st).2.stderrRead = none := by
  obtain ⟨f1, f2, f3, f4, f5, f6, _, _⟩ := cleanupProcess_fields st
  exact ⟨rfl, rfl, cleanupProcess_idem st, by decide,
         f1, f2, f3, f4, f5, f6⟩

/-- C7: an operation that flips the running flag from true to false is an
explicit Stop, a SpawnEngine that got past the existence and copy checks
(whose implicit CleanupProcess is the restart stop), or a drainer iteration
that observed process exit; SendCommand, ReadOutput and IsEngineRunning
never clear the flag, and a drainer iteration without an observed exit
leaves it set. -/
theorem running_cleared_only_by_stop_or_exit (st : Session) (op : EngineOp)
    (h1 : st.isRunning = true) (h2 : (moduleStep st op).isRunning = false) :
    op = EngineOp.stop ∨
    (∃ pkg tmp path o, op = EngineOp.spawn pkg tmp path o ∧
       o.fileExists = true ∧ o.copyOk = true) ∨
    (∃ d, op = EngineOp.drain d ∧ d.processExited = true) := by
  cases op with
  | spawn pkg tmp path o =>
      cases hf : o.fileExists with
      | false => simp [moduleStep, spawnEngine, hf, h1] at h2
      | true =>
          cases hc : o.copyOk with
          | false => simp [moduleStep, spawnEngine, hf, hc, h1] at h2
          | true => exact Or.inr (Or.inl ⟨pkg, tmp, path, o, rfl, hf, hc⟩)
  | send c w =>
      exfalso
      rw [moduleStep] at h2
      cases hp : st.stdinWrite <;> cases hw : w.ok <;>
        simp [sendCommand, h1, hp, hw] at h2
  | readOut =>
      exfalso
      by_cases hq : st.outputQueue = [] <;>
        simp [moduleStep, readOutput, hq, h1] at h2
  | stop => exact Or.inl rfl
  | query => simp [moduleStep, h1] at h2
  | drain d =>
      cases hd : d.processExited with
      | true => exact Or.inr (Or.inr ⟨d, rfl, hd⟩)
      | false =>
          exfalso
          cases hr : (d.dataAvailable && d.readOk && !d.bytes.isEmpty) <;>
            simp [moduleStep, outputReaderStep, h1, hd, hr] at h2

/-- Witness for running_cleared_only_by_stop_or_exit: an explicit Stop on
the running session clears the flag. -/
theorem running_cleared_witness :
    EngineOp.stop = EngineOp.stop ∨
    (∃ pkg tmp path o, EngineOp.stop = EngineOp.spawn pkg tmp path o ∧
       o.fileExists = true ∧ o.copyOk = true) ∨
    (∃ d, EngineOp.stop = EngineOp.drain d ∧ d.processExited = true) :=
  running_cleared_only_by_stop_or_exit runningSession EngineOp.stop rfl
    (by decide)

/-- C9: when a drainer iteration on a running session reads a nonempty
buffer, the chunk pushed on the queue and the chunk handed to the listener
are exactly the read bytes up to the first zero byte: everything after an
embedded NUL in that read is discarded and reaches neither the queue nor
the listener. -/
theorem outputReader_truncates_at_nul (st : Session) (d : DrainOracle)
    (hr : st.isRunning = true) (ha : d.dataAvailable = true)
    (hk : d.readOk = true) (hb : d.bytes ≠ []) :
    (outputReaderStep st d).1.outputQueue =
      st.outputQueue ++ [d.bytes.takeWhile (fun b => b != 0)] ∧
    (outputReaderStep st d).2 =
      (if d.listenerSet then some (d.bytes.takeWhile (fun b => b != 0))
       else none) := by
  have hbe : d.bytes.isEmpty = false := by
    cases hby : d.bytes with
    | nil => exact absurd hby hb
    | cons a l => rfl
  cases he : d.processExited <;>
    simp [outputReaderStep, decodeChunk, hr, ha, hk, hbe, he]

/-- Witness for outputReader_truncates_at_nul: a read containing an
embedded NUL enqueues only the bytes before it. -/
theorem outputReader_truncates_at_nul_witness :
    (outputReaderStep runningSession
        ⟨true, true, [104, 0, 105], true, false⟩).1.outputQueue =
      runningSession.outputQueue ++
        [([104, 0, 105] : List Nat).takeWhile (fun b => b != 0)] :=
  (outputReader_truncates_at_nul runningSession
    ⟨true, true, [104, 0, 105], true, false⟩ rfl rfl rfl (by decide)).1

/-- C10: SpawnEngine depends on its path argument only through the final
path component: two paths with the same extracted filename resolve to the
same packaged-engine path, copy to the same temp destination, and drive
SpawnEngine to identical results on every state and oracle. -/
theorem spawnEngine_depends_only_on_filename (pkg tmp : List Char)
    (st : Session) (p1 p2 : List Char) (o : SpawnOracle)
    (h : fileNameOf p1 = fileNameOf p2) :
    resolvePackagePath pkg p1 = resolvePackagePath pkg p2 ∧
    copyEngineToAppData tmp (resolvePackagePath pkg p1) =
      copyEngineToAppData tmp (resolvePackagePath pkg p2) ∧
    spawnEngine pkg tmp st p1 o = spawnEngine pkg tmp st p2 o := by
  have hr : resolvePackagePath pkg p1 = resolvePackagePath pkg p2 := by
    simp [resolvePackagePath, h]
  exact ⟨hr, by rw [hr], by unfold spawnEngine; rw [hr]⟩

/-- Witness for spawnEngine_depends_only_on_filename: a path with a
directory portion and the bare filename resolve identically. -/
theorem spawnEngine_filename_witness :
    resolvePackagePath "C:\\Pkg".data "C:\\evil\\engine.exe".data =
      resolvePackagePath "C:\\Pkg".data "engine.exe".data :=
  (spawnEngine_depends_only_on_filename "C:\\Pkg".data "T:\\tmp".data
    nullSession "C:\\evil\\engine.exe".data "engine.exe".data
    ⟨true, true, ⟨true, true, true, true⟩⟩ (by decide)).1
